import Mathlib

/-!
Shallow embedding of the testing utilities of this repository: the
`CircleCIArtifacts` artifact resolver (constructor, `initialize`, the
request helpers, `#findUrlForJob`, `downloadArtifact`) and the Android
emulator helpers (`hasConnectedDevice`, `tryLaunchEmulator`,
`maybeLaunchAndroidEmulator`).

JavaScript strings are Lean `String`s; where character-level behaviour from
the source matters (`indexOf`, `trim`, `split`) the operations are modelled
on `List Char` so every definition evaluates inside the kernel.

Error model: the source runs in strict mode.  `throw new Error(msg)` is
`JSError.thrown msg`; referencing an identifier that is not in scope (the
`throw new Error(error)` branches, where no `error` binding exists) is
`JSError.referenceError`; reading a property of `undefined` (unguarded
`.find(...)` results, `items[0]` of an empty array) is `JSError.typeError`
carrying the property name being read.  The constructors `notFound`,
`jobNotFound` and `artifactNotFound` model the error taxonomy of the
specification; the source itself never produces them.

Asynchrony: every awaited rejection aborts the computation, modelled with
`Except`.  The two calls of `#throwIfPendingOrUnsuccessfulWorkflow` lack an
`await`, so their rejections are unhandled; under Node's default
unhandled-rejection policy the process dies with that error while
`initialize` waits on its next request, so observably they abort the run
as well and are modelled as aborting.  `Promise.all` is a fork-join: both
requests are issued first, then the join either yields both results in
array order or rejects.  Each operation also returns the list of HTTP
requests it issued, so that theorems can speak about headers and about
requests that are (or are not) sent.
-/

namespace RNTestingUtils

/-- JavaScript prefix test on character lists: second list is a prefix of the first. -/
def listStartsWith : List Char → List Char → Bool
  | _, [] => true
  | [], _ :: _ => false
  | a :: as, b :: bs => a == b && listStartsWith as bs

/-- Occurrence of `pat` as a contiguous substring, the semantics of
JavaScript `s.indexOf(pat) > -1`. -/
def occursIn (pat : List Char) : List Char → Bool
  | [] => listStartsWith [] pat
  | c :: rest => listStartsWith (c :: rest) pat || occursIn pat rest

/-- JavaScript `s.indexOf(pat) > -1`: `pat` occurs contiguously in `s`. -/
def strContains (s pat : String) : Bool := occursIn pat.data s.data

/-- JavaScript `s.trim()`: strip whitespace from both ends. -/
def jsTrim (s : List Char) : List Char :=
  ((s.dropWhile Char.isWhitespace).reverse.dropWhile Char.isWhitespace).reverse

/-- JavaScript `s.split(sep)` for a one-character separator: always returns
at least one (possibly empty) piece. -/
def jsSplit (sep : Char) : List Char → List (List Char)
  | [] => [[]]
  | c :: rest =>
    if c == sep then [] :: jsSplit sep rest
    else
      match jsSplit sep rest with
      | [] => [[c]]
      | piece :: pieces => (c :: piece) :: pieces

/-! ## Data model of the CircleCI API responses -/

/-- One item of `GET .../pipeline`; `initialize` keeps `{id, number}`. -/
structure Pipeline where
  id : String
  number : Nat
deriving Repr, DecidableEq

/-- One item of `GET /pipeline/{id}/workflow`. -/
structure Workflow where
  id : String
  name : String
  status : String
deriving Repr, DecidableEq

/-- One item of `GET /workflow/{id}/job`. -/
structure Job where
  name : String
  job_number : Nat
deriving Repr, DecidableEq

/-- One item of `GET .../{jobNumber}/artifacts`. -/
structure Artifact where
  path : String
  url : String
deriving Repr, DecidableEq

/-- Failures observable from the source, plus the specification's taxonomy.
`thrown` is `throw new Error(msg)`; `referenceError name` is a strict-mode
use of the undeclared identifier `name`; `typeError prop` is a read of
property `prop` on `undefined`.  The last three constructors exist only so
that statements about the specification's `NotFound`, `JobNotFound` and
`ArtifactNotFound` errors can be written; no definition below produces them. -/
inductive JSError where
  | thrown (msg : String)
  | referenceError (name : String)
  | typeError (prop : String)
  | notFound (entity : String)
  | jobNotFound (jobName : String)
  | artifactNotFound (fragment : String)
deriving Repr, DecidableEq

/-- Whether a resolver result is the specification's `NotFound` failure. -/
def failsWithNotFound {α : Type} : Except JSError α → Bool
  | .error (.notFound _) => true
  | _ => false

/-- Whether a resolver result is the specification's `JobNotFound` failure. -/
def failsWithJobNotFound {α : Type} : Except JSError α → Bool
  | .error (.jobNotFound _) => true
  | _ => false

/-- Whether a resolver result is the specification's `ArtifactNotFound` failure. -/
def failsWithArtifactNotFound {α : Type} : Except JSError α → Bool
  | .error (.artifactNotFound _) => true
  | _ => false

/-- The options object handed to `request(options)`: `qs` and `headers` are
`none` when the source leaves the key out resp. when the value read is
`undefined`. -/
structure RequestOptions where
  method : String
  url : String
  qs : Option (List (String × String))
  headers : Option (List (String × String))
deriving Repr, DecidableEq

/-- A promisified `request` response after `JSON.parse(response.body)`:
`error` is `response.error` (`some` means a truthy error value), `items`
the parsed body's `items` array. -/
structure HttpResp (α : Type) where
  error : Option String
  items : List α

/-- A stub of the CircleCI REST API, one typed endpoint per URL family.
Each endpoint receives the exact options object the source builds. -/
structure Api where
  pipeline : RequestOptions → HttpResp Pipeline
  workflow : RequestOptions → HttpResp Workflow
  job : RequestOptions → HttpResp Job
  artifacts : RequestOptions → HttpResp Artifact

/-! ## The `CircleCIArtifacts` class -/

/-- Instance state of `CircleCIArtifacts`.  The source declares the private
field `#circleCIHeaders` but the constructor assigns
`this.circleCIToken = {'Circle-Token': token}`, so the property
`circleCIHeaders` that every request reads is never assigned and stays
`undefined` (`none`).  `jobs` is `this.jobs`, assigned by `initialize`. -/
structure CircleCIArtifacts where
  circleCIToken : List (String × String)
  circleCIHeaders : Option (List (String × String))
  jobs : Option (List Job)
deriving Repr

/-- `new CircleCIArtifacts(circleCIToken)`. -/
def CircleCIArtifacts.constructor (circleCIToken : String) : CircleCIArtifacts :=
  { circleCIToken := [("Circle-Token", circleCIToken)]
    circleCIHeaders := none
    jobs := none }

/-- URL of the pipeline listing endpoint. -/
def pipelineURL : String :=
  "https://circleci.com/api/v2/project/gh/facebook/react-native/pipeline"

/-- URL of the workflow listing endpoint for a pipeline. -/
def workflowURL (pipelineId : String) : String :=
  "https://circleci.com/api/v2/pipeline/" ++ pipelineId ++ "/workflow"

/-- URL of the job listing endpoint for a workflow. -/
def jobsURL (workflowId : String) : String :=
  "https://circleci.com/api/v2/workflow/" ++ workflowId ++ "/job"

/-- URL of the artifact listing endpoint for a job. -/
def artifactsURL (jobNumber : Nat) : String :=
  "https://circleci.com/api/v2/project/gh/facebook/react-native/" ++
    toString jobNumber ++ "/artifacts"

/-- Options built by `#getLastCircleCIPipelineID`. -/
def CircleCIArtifacts.pipelineOptions (self : CircleCIArtifacts)
    (branchName : String) : RequestOptions :=
  { method := "GET"
    url := pipelineURL
    qs := some [("branch", branchName)]
    headers := self.circleCIHeaders }

/-- Options built by `#getSpecificWorkflow`. -/
def CircleCIArtifacts.workflowOptions (self : CircleCIArtifacts)
    (pipelineId : String) : RequestOptions :=
  { method := "GET"
    url := workflowURL pipelineId
    qs := none
    headers := self.circleCIHeaders }

/-- Options built by `#getCircleCIJobs`. -/
def CircleCIArtifacts.jobOptions (self : CircleCIArtifacts)
    (workflowId : String) : RequestOptions :=
  { method := "GET"
    url := jobsURL workflowId
    qs := none
    headers := self.circleCIHeaders }

/-- Options built by `#getJobsArtifacts`. -/
def CircleCIArtifacts.artifactsOptions (self : CircleCIArtifacts)
    (jobNumber : Nat) : RequestOptions :=
  { method := "GET"
    url := artifactsURL jobNumber
    qs := none
    headers := self.circleCIHeaders }

/-- The message template of `#throwIfPendingOrUnsuccessfulWorkflow`. -/
def workflowNotReadyMsg (name status : String) : String :=
  "The " ++ (name ++ (" workflow status is " ++ (status ++
    ". Please, wait for it to be finished before start testing or fix it")))

/-- `#throwIfPendingOrUnsuccessfulWorkflow(workflow)`: with `workflow`
`undefined` the read `workflow.status` raises a TypeError; otherwise any
status other than the exact string `success` throws the message above. -/
def CircleCIArtifacts.throwIfPendingOrUnsuccessfulWorkflow :
    Option Workflow → Except JSError Unit
  | none => .error (.typeError "status")
  | some workflow =>
    if workflow.status ≠ "success" then
      .error (.thrown (workflowNotReadyMsg workflow.name workflow.status))
    else
      .ok ()

/-- `#getLastCircleCIPipelineID(branchName)`: one GET; a truthy
`response.error` reaches `throw new Error(error)` whose `error` identifier
is not in scope; with no items, `items[0]` is `undefined` and
`lastPipeline.id` raises a TypeError; otherwise the `{id, number}` pair of
the first item is returned. -/
def CircleCIArtifacts.getLastCircleCIPipelineID (self : CircleCIArtifacts)
    (api : Api) (branchName : String) :
    Except JSError Pipeline × List RequestOptions :=
  let options := CircleCIArtifacts.pipelineOptions self branchName
  let response := api.pipeline options
  (match response.error, response.items with
    | some _, _ => .error (.referenceError "error")
    | none, [] => .error (.typeError "id")
    | none, lastPipeline :: _ => .ok ⟨lastPipeline.id, lastPipeline.number⟩,
   [options])

/-- `#getSpecificWorkflow(pipelineId, workflowName)`: one GET; on success
it returns `body.items.find(w => w.name === workflowName)`, which is
`undefined` (`none`) when the name is absent. -/
def CircleCIArtifacts.getSpecificWorkflow (self : CircleCIArtifacts)
    (api : Api) (pipelineId workflowName : String) :
    Except JSError (Option Workflow) × List RequestOptions :=
  let options := CircleCIArtifacts.workflowOptions self pipelineId
  let response := api.workflow options
  (match response.error with
    | some _ => .error (.referenceError "error")
    | none => .ok (response.items.find? (fun workflow => workflow.name == workflowName)),
   [options])

/-- `#getPackageAndReleaseWorkflow(pipelineId)`. -/
def CircleCIArtifacts.getPackageAndReleaseWorkflow (self : CircleCIArtifacts)
    (api : Api) (pipelineId : String) :
    Except JSError (Option Workflow) × List RequestOptions :=
  CircleCIArtifacts.getSpecificWorkflow self api pipelineId
    "package_and_publish_release_dryrun"

/-- `#getTestsWorkflow(pipelineId)`. -/
def CircleCIArtifacts.getTestsWorkflow (self : CircleCIArtifacts)
    (api : Api) (pipelineId : String) :
    Except JSError (Option Workflow) × List RequestOptions :=
  CircleCIArtifacts.getSpecificWorkflow self api pipelineId "tests"

/-- `#getCircleCIJobs(workflowId)`: one GET returning `body.items`. -/
def CircleCIArtifacts.getCircleCIJobs (self : CircleCIArtifacts)
    (api : Api) (workflowId : String) :
    Except JSError (List Job) × List RequestOptions :=
  let options := CircleCIArtifacts.jobOptions self workflowId
  let response := api.job options
  (match response.error with
    | some _ => .error (.referenceError "error")
    | none => .ok response.items,
   [options])

/-- `#getJobsArtifacts(jobNumber)`: one GET returning `body.items`. -/
def CircleCIArtifacts.getJobsArtifacts (self : CircleCIArtifacts)
    (api : Api) (jobNumber : Nat) :
    Except JSError (List Artifact) × List RequestOptions :=
  let options := CircleCIArtifacts.artifactsOptions self jobNumber
  let response := api.artifacts options
  (match response.error with
    | some _ => .error (.referenceError "error")
    | none => .ok response.items,
   [options])

/-- `initialize(branchName)`: pipeline lookup, the two workflow lookups with
their status validation, then the fork-join pair of job fetches whose
results `flatMap` into `this.jobs`.  The success value is the updated
instance; the second component is every request issued, in issue order. -/
def CircleCIArtifacts.initialize (self : CircleCIArtifacts) (api : Api)
    (branchName : String) :
    Except JSError CircleCIArtifacts × List RequestOptions :=
  let pipelineStep := CircleCIArtifacts.getLastCircleCIPipelineID self api branchName
  let tr1 := pipelineStep.2
  match pipelineStep.1 with
  | .error e => (.error e, tr1)
  | .ok pipeline =>
    let wfStep1 := CircleCIArtifacts.getPackageAndReleaseWorkflow self api pipeline.id
    let tr2 := wfStep1.2
    match wfStep1.1 with
    | .error e => (.error e, tr1 ++ tr2)
    | .ok packageAndReleaseWorkflow =>
      match CircleCIArtifacts.throwIfPendingOrUnsuccessfulWorkflow
          packageAndReleaseWorkflow with
      | .error e => (.error e, tr1 ++ tr2)
      | .ok _ =>
        let wfStep2 := CircleCIArtifacts.getTestsWorkflow self api pipeline.id
        let tr3 := wfStep2.2
        match wfStep2.1 with
        | .error e => (.error e, tr1 ++ tr2 ++ tr3)
        | .ok testsWorkflow =>
          match CircleCIArtifacts.throwIfPendingOrUnsuccessfulWorkflow
              testsWorkflow with
          | .error e => (.error e, tr1 ++ tr2 ++ tr3)
          | .ok _ =>
            match packageAndReleaseWorkflow, testsWorkflow with
            | none, _ => (.error (.typeError "id"), tr1 ++ tr2 ++ tr3)
            | _, none => (.error (.typeError "id"), tr1 ++ tr2 ++ tr3)
            | some w1, some w2 =>
              let jobStep1 := CircleCIArtifacts.getCircleCIJobs self api w1.id
              let jobStep2 := CircleCIArtifacts.getCircleCIJobs self api w2.id
              let trace := tr1 ++ tr2 ++ tr3 ++ jobStep1.2 ++ jobStep2.2
              match jobStep1.1, jobStep2.1 with
              | .error e, _ => (.error e, trace)
              | _, .error e => (.error e, trace)
              | .ok jobs1, .ok jobs2 =>
                (.ok { self with
                        jobs := some (([jobs1, jobs2]).flatMap (fun jobs => jobs)) },
                 trace)

/-- `#findUrlForJob(jobName, artifactPath)`: `this.jobs.find(...)` (a
TypeError on `find` if `jobs` was never assigned), then `job.job_number`
(a TypeError when the job name is absent, before any artifact request is
sent), then one artifact GET and
`artifacts.find(a => a.path.indexOf(artifactPath) > -1).url` (a TypeError
on `url` when no path matches). -/
def CircleCIArtifacts.findUrlForJob (self : CircleCIArtifacts) (api : Api)
    (jobName artifactPath : String) :
    Except JSError String × List RequestOptions :=
  match self.jobs with
  | none => (.error (.typeError "find"), [])
  | some jobsList =>
    match jobsList.find? (fun j => j.name == jobName) with
    | none => (.error (.typeError "job_number"), [])
    | some job =>
      let artifactsStep := CircleCIArtifacts.getJobsArtifacts self api job.job_number
      let trace := artifactsStep.2
      match artifactsStep.1 with
      | .error e => (.error e, trace)
      | .ok artifacts =>
        match artifacts.find? (fun artifact => strContains artifact.path artifactPath) with
        | none => (.error (.typeError "url"), trace)
        | some artifact => (.ok artifact.url, trace)

/-! ## `downloadArtifact` and its shell-level semantics -/

/-- The two shell commands `downloadArtifact` runs. -/
inductive ShellCmd where
  | rmRf (path : String)
  | curlLo (url : String) (dest : String)
deriving Repr, DecidableEq

/-- `downloadArtifact(artifactURL, destination)`:
`exec(rm -rf destination)` then `exec(curl artifactURL -Lo destination)`. -/
def CircleCIArtifacts.downloadArtifact (artifactURL destination : String) :
    List ShellCmd :=
  [ShellCmd.rmRf destination, ShellCmd.curlLo artifactURL destination]

/-- A filesystem: each path maps to the contents of the file there, if any. -/
def FS : Type := String → Option String

/-- Semantics of one shell command: `rm -rf p` deletes `p` and everything
below it; `curl url -Lo dest` writes the fetched bytes `net url` to `dest`
(`net` maps a URL to the bytes the network serves for it). -/
def runShellCmd (net : String → String) (fs : FS) : ShellCmd → FS
  | .rmRf p => fun q =>
      if q == p || listStartsWith q.data (p ++ "/").data then none else fs q
  | .curlLo url dest => fun q => if q == dest then some (net url) else fs q

/-- Run a command sequence left to right. -/
def runShell (net : String → String) (fs : FS) : List ShellCmd → FS
  | [] => fs
  | c :: cs => runShell net (runShellCmd net fs c) cs

/-! ## Android emulator helpers -/

/-- The external state the Android helpers read: raw stdout of
`adb devices | grep -v emulator` and of `emulator -list-avds`. -/
structure AndroidEnv where
  adbDevicesStdout : String
  avdListStdout : String

/-- `hasConnectedDevice()`:
`exec(...).stdout.trim().split('\n').slice(1)` is nonempty. -/
def hasConnectedDevice (env : AndroidEnv) : Bool :=
  let physicalDevices := (jsSplit (Char.ofNat 10) (jsTrim env.adbDevicesStdout.data)).drop 1
  decide (physicalDevices.length > 0)

/-- A JavaScript value as the `if` condition of `maybeLaunchAndroidEmulator`
sees it. -/
inductive JSValue where
  | undefined
  | bool (b : Bool)
  | func (name : String)
deriving Repr, DecidableEq

/-- JavaScript truthiness: `undefined` is falsy, a function object truthy. -/
def JSValue.truthy : JSValue → Bool
  | .undefined => false
  | .bool b => b
  | .func _ => true

/-- What `maybeLaunchAndroidEmulator`'s condition `if (hasConnectedDevice)`
evaluates: the function object itself — the source omits the call
parentheses, so the device state is never consulted. -/
def hasConnectedDeviceRef : JSValue := JSValue.func "hasConnectedDevice"

/-- `getEmulators()`: split the avd listing on the platform EOL and drop
empty names. -/
def getEmulators (env : AndroidEnv) : List String :=
  ((jsSplit (Char.ofNat 10) env.avdListStdout.data).map (fun cs => String.mk cs)).filter
    (fun name => name != "")

/-- The `{success, error}` object `tryLaunchEmulator` returns. -/
structure LaunchResult where
  success : Bool
  error : Option String
deriving Repr, DecidableEq

/-- `tryLaunchEmulator()`: spawn the first listed emulator when one exists.
The second component lists the emulators actually spawned. -/
def tryLaunchEmulator (env : AndroidEnv) : LaunchResult × List String :=
  match getEmulators env with
  | emulator :: _ => ({ success := true, error := none }, [emulator])
  | [] =>
    ({ success := false
       error := some "No emulators found as an output of `emulator -list-avds`" },
     [])

/-- Observable outcome of `maybeLaunchAndroidEmulator`. -/
inductive EmulatorOutcome where
  | skippedLaunch
  | launched
  | failed (reason : Option String)
deriving Repr, DecidableEq

/-- `maybeLaunchAndroidEmulator()`: the condition is the function reference
`hasConnectedDevice`, not a call of it.  The second component lists the
emulators spawned. -/
def maybeLaunchAndroidEmulator (env : AndroidEnv) : EmulatorOutcome × List String :=
  if JSValue.truthy hasConnectedDeviceRef then
    (.skippedLaunch, [])
  else
    let (result, spawned) := tryLaunchEmulator env
    if result.success then (.launched, spawned)
    else (.failed result.error, spawned)

/-! ## Stub APIs used by witnesses and counterexamples -/

/-- A healthy stub of the API: one pipeline, both significant workflows
successful, one job per workflow (dispatched on the request URL), one
artifact. -/
def witnessApi : Api :=
  { pipeline := fun _ => ⟨none, [⟨"p1", 42⟩]⟩
    workflow := fun _ =>
      ⟨none, [⟨"w1", "package_and_publish_release_dryrun", "success"⟩,
              ⟨"w2", "tests", "success"⟩]⟩
    job := fun options =>
      if options.url == jobsURL "w1" then ⟨none, [⟨"build_hermes_macos-Debug", 7⟩]⟩
      else ⟨none, [⟨"test_android", 9⟩]⟩
    artifacts := fun _ =>
      ⟨none, [⟨"artifacts/hermes-ios-debug.tar.gz", "https://example.com/hermes"⟩]⟩ }

/-- The resolver state reached by a successful `initialize` against
`witnessApi`. -/
def witnessState : CircleCIArtifacts :=
  { CircleCIArtifacts.constructor "token" with
    jobs := some [⟨"build_hermes_macos-Debug", 7⟩, ⟨"test_android", 9⟩] }

/-- Stub whose every endpoint reports a transport error `e`. -/
def errorApi (e : String) : Api :=
  { pipeline := fun _ => ⟨some e, []⟩
    workflow := fun _ => ⟨some e, []⟩
    job := fun _ => ⟨some e, []⟩
    artifacts := fun _ => ⟨some e, []⟩ }

/-- Stub with a pipeline listing that has no items. -/
def emptyPipelinesApi : Api :=
  { witnessApi with pipeline := fun _ => ⟨none, []⟩ }

/-- Stub whose workflow listing has no workflow of the two significant names. -/
def missingWorkflowApi : Api :=
  { witnessApi with workflow := fun _ => ⟨none, [⟨"w9", "analyze", "success"⟩]⟩ }

/-- Stub where the release dry-run workflow is still running. -/
def runningWorkflowApi : Api :=
  { witnessApi with workflow := fun _ =>
      ⟨none, [⟨"w1", "package_and_publish_release_dryrun", "running"⟩,
              ⟨"w2", "tests", "success"⟩]⟩ }

/-! ## Helper lemmas -/

theorem listStartsWith_append (pat rest : List Char) :
    listStartsWith (pat ++ rest) pat = true := by
  induction pat with
  | nil => cases rest <;> rfl
  | cons c cs ih => simp [listStartsWith, ih]

theorem occursIn_append (pre pat post : List Char) :
    occursIn pat (pre ++ (pat ++ post)) = true := by
  induction pre with
  | nil =>
    cases h : pat ++ post with
    | nil =>
      cases pat with
      | nil => rfl
      | cons c cs => simp at h
    | cons c r =>
      simp only [List.nil_append, h, occursIn]
      rw [← h, listStartsWith_append]
      rfl
  | cons c cs ih =>
    simp only [List.cons_append, occursIn]
    rw [show cs.append (pat ++ post) = cs ++ (pat ++ post) from rfl, ih, Bool.or_true]

theorem occursIn_of_eq (pat l pre post : List Char) (h : l = pre ++ (pat ++ post)) :
    occursIn pat l = true := by
  rw [h]; exact occursIn_append pre pat post

theorem workflowNotReadyMsg_has_name (n s : String) :
    strContains (workflowNotReadyMsg n s) n = true := by
  unfold strContains
  refine occursIn_of_eq n.data (workflowNotReadyMsg n s).data "The ".data
    (" workflow status is ".data ++ (s.data ++
      ". Please, wait for it to be finished before start testing or fix it".data)) ?_
  simp [workflowNotReadyMsg, String.data_append]

theorem workflowNotReadyMsg_has_status (n s : String) :
    strContains (workflowNotReadyMsg n s) s = true := by
  unfold strContains
  refine occursIn_of_eq s.data (workflowNotReadyMsg n s).data
    ("The ".data ++ n.data ++ " workflow status is ".data)
    ". Please, wait for it to be finished before start testing or fix it".data ?_
  simp [workflowNotReadyMsg, String.data_append]

theorem find?_first {α : Type} (p : α → Bool) (l1 : List α) (a : α) (l2 : List α)
    (h1 : ∀ b ∈ l1, p b = false) (ha : p a = true) :
    (l1 ++ a :: l2).find? p = some a := by
  induction l1 with
  | nil => simp [List.find?, ha]
  | cons x xs ih =>
    have hx : p x = false := h1 x (List.mem_cons_self x xs)
    simp only [List.cons_append, List.find?, hx]
    exact ih (fun b hb => h1 b (List.mem_cons_of_mem x hb))

theorem getLastCircleCIPipelineID_trace (self : CircleCIArtifacts) (api : Api)
    (branchName : String) :
    (CircleCIArtifacts.getLastCircleCIPipelineID self api branchName).2
      = [CircleCIArtifacts.pipelineOptions self branchName] := rfl

theorem getSpecificWorkflow_trace (self : CircleCIArtifacts) (api : Api)
    (pipelineId workflowName : String) :
    (CircleCIArtifacts.getSpecificWorkflow self api pipelineId workflowName).2
      = [CircleCIArtifacts.workflowOptions self pipelineId] := rfl

theorem getCircleCIJobs_trace (self : CircleCIArtifacts) (api : Api)
    (workflowId : String) :
    (CircleCIArtifacts.getCircleCIJobs self api workflowId).2
      = [CircleCIArtifacts.jobOptions self workflowId] := rfl

theorem getJobsArtifacts_trace (self : CircleCIArtifacts) (api : Api)
    (jobNumber : Nat) :
    (CircleCIArtifacts.getJobsArtifacts self api jobNumber).2
      = [CircleCIArtifacts.artifactsOptions self jobNumber] := rfl

theorem getLastCircleCIPipelineID_fst_ok (self : CircleCIArtifacts) (api : Api)
    (branchName : String) (p : Pipeline) (rest : List Pipeline)
    (h : api.pipeline (CircleCIArtifacts.pipelineOptions self branchName)
      = ⟨none, p :: rest⟩) :
    (CircleCIArtifacts.getLastCircleCIPipelineID self api branchName).1
      = .ok ⟨p.id, p.number⟩ := by
  simp [CircleCIArtifacts.getLastCircleCIPipelineID, h]

theorem getSpecificWorkflow_fst_ok (self : CircleCIArtifacts) (api : Api)
    (pipelineId workflowName : String) (ws : List Workflow)
    (h : api.workflow (CircleCIArtifacts.workflowOptions self pipelineId)
      = ⟨none, ws⟩) :
    (CircleCIArtifacts.getSpecificWorkflow self api pipelineId workflowName).1
      = .ok (ws.find? (fun workflow => workflow.name == workflowName)) := by
  simp [CircleCIArtifacts.getSpecificWorkflow, h]

theorem getCircleCIJobs_fst_ok (self : CircleCIArtifacts) (api : Api)
    (workflowId : String) (jobItems : List Job)
    (h : api.job (CircleCIArtifacts.jobOptions self workflowId) = ⟨none, jobItems⟩) :
    (CircleCIArtifacts.getCircleCIJobs self api workflowId).1 = .ok jobItems := by
  simp [CircleCIArtifacts.getCircleCIJobs, h]

theorem getJobsArtifacts_fst_ok (self : CircleCIArtifacts) (api : Api)
    (jobNumber : Nat) (artifactItems : List Artifact)
    (h : api.artifacts (CircleCIArtifacts.artifactsOptions self jobNumber)
      = ⟨none, artifactItems⟩) :
    (CircleCIArtifacts.getJobsArtifacts self api jobNumber).1 = .ok artifactItems := by
  simp [CircleCIArtifacts.getJobsArtifacts, h]

theorem getPackageAndReleaseWorkflow_trace (self : CircleCIArtifacts) (api : Api)
    (pipelineId : String) :
    (CircleCIArtifacts.getPackageAndReleaseWorkflow self api pipelineId).2
      = [CircleCIArtifacts.workflowOptions self pipelineId] := rfl

theorem getTestsWorkflow_trace (self : CircleCIArtifacts) (api : Api)
    (pipelineId : String) :
    (CircleCIArtifacts.getTestsWorkflow self api pipelineId).2
      = [CircleCIArtifacts.workflowOptions self pipelineId] := rfl

/-! ## Claim theorems -/

/-- C8: for every request helper of the resolver (pipeline, workflow, job,
artifact), whenever the HTTP response reports an error, the helper raises
the strict-mode ReferenceError for the identifier `error`, which is not in
scope at the `throw new Error(error)` site.  The result is the same
constant for every underlying error value `e`, so the failure carries
nothing of the underlying error. -/
theorem requestError_rethrow_loses_detail (self : CircleCIArtifacts)
    (branchName pipelineId workflowName workflowId : String) (jobNumber : Nat)
    (e : String) :
    (CircleCIArtifacts.getLastCircleCIPipelineID self (errorApi e) branchName).1
      = .error (.referenceError "error") ∧
    (CircleCIArtifacts.getSpecificWorkflow self (errorApi e) pipelineId workflowName).1
      = .error (.referenceError "error") ∧
    (CircleCIArtifacts.getCircleCIJobs self (errorApi e) workflowId).1
      = .error (.referenceError "error") ∧
    (CircleCIArtifacts.getJobsArtifacts self (errorApi e) jobNumber).1
      = .error (.referenceError "error") :=
  ⟨rfl, rfl, rfl, rfl⟩

/-- C9: `downloadArtifact(url, destinationPath)` runs exactly the command
sequence `rm -rf destinationPath` followed by the download into
`destinationPath`; afterwards the content at the destination is the freshly
fetched bytes, independent of whatever filesystem the sequence started
from, so no pre-existing content at the destination remains visible. -/
theorem downloadArtifact_removes_then_fetches (artifactURL destination : String)
    (net : String → String) (fs : FS) :
    CircleCIArtifacts.downloadArtifact artifactURL destination
      = [ShellCmd.rmRf destination, ShellCmd.curlLo artifactURL destination] ∧
    runShell net fs (CircleCIArtifacts.downloadArtifact artifactURL destination)
      destination = some (net artifactURL) ∧
    (∀ fs' : FS,
      runShell net fs (CircleCIArtifacts.downloadArtifact artifactURL destination)
          destination
        = runShell net fs' (CircleCIArtifacts.downloadArtifact artifactURL destination)
          destination) := by
  refine ⟨rfl, ?_, fun fs' => ?_⟩ <;>
    simp [runShell, runShellCmd, CircleCIArtifacts.downloadArtifact]

/-- C10: for every device/emulator state, `maybeLaunchAndroidEmulator`
takes the already-connected branch and spawns nothing, because its
condition is the always-truthy function reference `hasConnectedDevice`
rather than the result of calling it; the sample state shows an
environment in which calling `hasConnectedDevice` would have returned
`false`, yet the emulator launch is still skipped. -/
theorem maybeLaunchAndroidEmulator_always_skips :
    JSValue.truthy hasConnectedDeviceRef = true ∧
    (∀ env : AndroidEnv, maybeLaunchAndroidEmulator env
      = (EmulatorOutcome.skippedLaunch, [])) ∧
    hasConnectedDevice ⟨"List of devices attached", "Pixel_3a_API_34"⟩ = false ∧
    maybeLaunchAndroidEmulator ⟨"List of devices attached", "Pixel_3a_API_34"⟩
      = (EmulatorOutcome.skippedLaunch, []) := by
  refine ⟨rfl, fun env => rfl, by decide, rfl⟩

/-- C1: with the two named workflows located (the dry-run release workflow
`w1` and the tests workflow `w2`), a status of `w1` other than exactly
"success" makes `initialize` fail with the thrown workflow-not-ready error
whose message contains that workflow's name and its actual status; with
`w1` successful, the same holds for `w2`; and `initialize` can only
succeed when both statuses equal "success". -/
theorem initialize_validates_workflow_status
    (self : CircleCIArtifacts) (api : Api) (branchName : String)
    (p : Pipeline) (rest : List Pipeline) (ws : List Workflow) (w1 w2 : Workflow)
    (hpl : api.pipeline (CircleCIArtifacts.pipelineOptions self branchName)
      = ⟨none, p :: rest⟩)
    (hwf : api.workflow (CircleCIArtifacts.workflowOptions self p.id) = ⟨none, ws⟩)
    (hfind1 : ws.find? (fun workflow =>
      workflow.name == "package_and_publish_release_dryrun") = some w1)
    (hfind2 : ws.find? (fun workflow => workflow.name == "tests") = some w2) :
    (w1.status ≠ "success" →
      ( CircleCIArtifacts.initialize self api branchName).1
        = .error (.thrown (workflowNotReadyMsg w1.name w1.status)) ∧
      strContains (workflowNotReadyMsg w1.name w1.status) w1.name = true ∧
      strContains (workflowNotReadyMsg w1.name w1.status) w1.status = true) ∧
    (w1.status = "success" → w2.status ≠ "success" →
      ( CircleCIArtifacts.initialize self api branchName).1
        = .error (.thrown (workflowNotReadyMsg w2.name w2.status)) ∧
      strContains (workflowNotReadyMsg w2.name w2.status) w2.name = true ∧
      strContains (workflowNotReadyMsg w2.name w2.status) w2.status = true) ∧
    (∀ self', ( CircleCIArtifacts.initialize self api branchName).1 = .ok self' →
      w1.status = "success" ∧ w2.status = "success") := by
  have e1 : (CircleCIArtifacts.getLastCircleCIPipelineID self api branchName).1
      = .ok ⟨p.id, p.number⟩ :=
    getLastCircleCIPipelineID_fst_ok self api branchName p rest hpl
  have e2 : (CircleCIArtifacts.getPackageAndReleaseWorkflow self api p.id).1
      = .ok (some w1) := by
    unfold CircleCIArtifacts.getPackageAndReleaseWorkflow
    rw [getSpecificWorkflow_fst_ok self api p.id _ ws hwf, hfind1]
  have e3 : (CircleCIArtifacts.getTestsWorkflow self api p.id).1
      = .ok (some w2) := by
    unfold CircleCIArtifacts.getTestsWorkflow
    rw [getSpecificWorkflow_fst_ok self api p.id _ ws hwf, hfind2]
  refine ⟨?_, ?_, ?_⟩
  · intro h1
    refine ⟨?_, workflowNotReadyMsg_has_name _ _, workflowNotReadyMsg_has_status _ _⟩
    simp [ CircleCIArtifacts.initialize, e1, e2,
      CircleCIArtifacts.throwIfPendingOrUnsuccessfulWorkflow, h1]
  · intro h1 h2
    refine ⟨?_, workflowNotReadyMsg_has_name _ _, workflowNotReadyMsg_has_status _ _⟩
    simp [ CircleCIArtifacts.initialize, e1, e2, e3,
      CircleCIArtifacts.throwIfPendingOrUnsuccessfulWorkflow, h1, h2]
  · intro self' hok
    by_cases h1 : w1.status = "success"
    · by_cases h2 : w2.status = "success"
      · exact ⟨h1, h2⟩
      · exfalso
        simp [ CircleCIArtifacts.initialize, e1, e2, e3,
          CircleCIArtifacts.throwIfPendingOrUnsuccessfulWorkflow, h1, h2] at hok
    · exfalso
      simp [ CircleCIArtifacts.initialize, e1, e2,
        CircleCIArtifacts.throwIfPendingOrUnsuccessfulWorkflow, h1] at hok

/-- Witness for C1 at a concrete stub whose dry-run release workflow has
status "running". -/
theorem initialize_validates_workflow_status_witness :
    ( CircleCIArtifacts.initialize (CircleCIArtifacts.constructor "token")
        runningWorkflowApi "main").1
      = .error (.thrown (workflowNotReadyMsg
          "package_and_publish_release_dryrun" "running")) ∧
    strContains (workflowNotReadyMsg "package_and_publish_release_dryrun" "running")
      "package_and_publish_release_dryrun" = true ∧
    strContains (workflowNotReadyMsg "package_and_publish_release_dryrun" "running")
      "running" = true :=
  (initialize_validates_workflow_status (CircleCIArtifacts.constructor "token")
    runningWorkflowApi "main" ⟨"p1", 42⟩ []
    [⟨"w1", "package_and_publish_release_dryrun", "running"⟩,
     ⟨"w2", "tests", "success"⟩]
    ⟨"w1", "package_and_publish_release_dryrun", "running"⟩
    ⟨"w2", "tests", "success"⟩ rfl rfl (by decide) (by decide)).1 (by decide)

/-- C4: after a successful `initialize`, the aggregated job collection is
exactly the job list fetched for the dry-run release workflow concatenated,
in that order, with the job list fetched for the tests workflow; both job
requests are issued (they appear in the request trace before `initialize`
returns, the fork-join barrier) and the artifact-lookup state `jobs` is
populated only with their joined results. -/
theorem initialize_aggregates_jobs
    (self : CircleCIArtifacts) (api : Api) (branchName : String)
    (p : Pipeline) (rest : List Pipeline) (ws : List Workflow) (w1 w2 : Workflow)
    (jobs1 jobs2 : List Job)
    (hpl : api.pipeline (CircleCIArtifacts.pipelineOptions self branchName)
      = ⟨none, p :: rest⟩)
    (hwf : api.workflow (CircleCIArtifacts.workflowOptions self p.id) = ⟨none, ws⟩)
    (hfind1 : ws.find? (fun workflow =>
      workflow.name == "package_and_publish_release_dryrun") = some w1)
    (hfind2 : ws.find? (fun workflow => workflow.name == "tests") = some w2)
    (hs1 : w1.status = "success") (hs2 : w2.status = "success")
    (hj1 : api.job (CircleCIArtifacts.jobOptions self w1.id) = ⟨none, jobs1⟩)
    (hj2 : api.job (CircleCIArtifacts.jobOptions self w2.id) = ⟨none, jobs2⟩) :
    CircleCIArtifacts.initialize self api branchName
      = (.ok { self with jobs := some (jobs1 ++ jobs2) },
         [CircleCIArtifacts.pipelineOptions self branchName,
          CircleCIArtifacts.workflowOptions self p.id,
          CircleCIArtifacts.workflowOptions self p.id,
          CircleCIArtifacts.jobOptions self w1.id,
          CircleCIArtifacts.jobOptions self w2.id]) := by
  have e1 : (CircleCIArtifacts.getLastCircleCIPipelineID self api branchName).1
      = .ok ⟨p.id, p.number⟩ :=
    getLastCircleCIPipelineID_fst_ok self api branchName p rest hpl
  have e2 : (CircleCIArtifacts.getPackageAndReleaseWorkflow self api p.id).1
      = .ok (some w1) := by
    unfold CircleCIArtifacts.getPackageAndReleaseWorkflow
    rw [getSpecificWorkflow_fst_ok self api p.id _ ws hwf, hfind1]
  have e3 : (CircleCIArtifacts.getTestsWorkflow self api p.id).1
      = .ok (some w2) := by
    unfold CircleCIArtifacts.getTestsWorkflow
    rw [getSpecificWorkflow_fst_ok self api p.id _ ws hwf, hfind2]
  have e4 : (CircleCIArtifacts.getCircleCIJobs self api w1.id).1 = .ok jobs1 :=
    getCircleCIJobs_fst_ok self api w1.id jobs1 hj1
  have e5 : (CircleCIArtifacts.getCircleCIJobs self api w2.id).1 = .ok jobs2 :=
    getCircleCIJobs_fst_ok self api w2.id jobs2 hj2
  simp [ CircleCIArtifacts.initialize, e1, e2, e3, e4, e5,
    CircleCIArtifacts.throwIfPendingOrUnsuccessfulWorkflow, hs1, hs2,
    getLastCircleCIPipelineID_trace, getPackageAndReleaseWorkflow_trace,
    getTestsWorkflow_trace, getCircleCIJobs_trace]

/-- Witness for C4 at the healthy stub API: the aggregate is the dry-run
workflow's job followed by the tests workflow's job. -/
theorem initialize_aggregates_jobs_witness :
    CircleCIArtifacts.initialize (CircleCIArtifacts.constructor "token")
        witnessApi "main"
      = (.ok { CircleCIArtifacts.constructor "token" with
                jobs := some [⟨"build_hermes_macos-Debug", 7⟩, ⟨"test_android", 9⟩] },
         [CircleCIArtifacts.pipelineOptions (CircleCIArtifacts.constructor "token") "main",
          CircleCIArtifacts.workflowOptions (CircleCIArtifacts.constructor "token") "p1",
          CircleCIArtifacts.workflowOptions (CircleCIArtifacts.constructor "token") "p1",
          CircleCIArtifacts.jobOptions (CircleCIArtifacts.constructor "token") "w1",
          CircleCIArtifacts.jobOptions (CircleCIArtifacts.constructor "token") "w2"]) :=
  initialize_aggregates_jobs (CircleCIArtifacts.constructor "token") witnessApi "main"
    ⟨"p1", 42⟩ []
    [⟨"w1", "package_and_publish_release_dryrun", "success"⟩, ⟨"w2", "tests", "success"⟩]
    ⟨"w1", "package_and_publish_release_dryrun", "success"⟩ ⟨"w2", "tests", "success"⟩
    [⟨"build_hermes_macos-Debug", 7⟩] [⟨"test_android", 9⟩]
    rfl rfl (by decide) (by decide) rfl rfl rfl rfl

theorem pipelineOptions_headers (self : CircleCIArtifacts) (b : String) :
    (CircleCIArtifacts.pipelineOptions self b).headers = self.circleCIHeaders := rfl

theorem workflowOptions_headers (self : CircleCIArtifacts) (pid : String) :
    (CircleCIArtifacts.workflowOptions self pid).headers = self.circleCIHeaders := rfl

theorem jobOptions_headers (self : CircleCIArtifacts) (wid : String) :
    (CircleCIArtifacts.jobOptions self wid).headers = self.circleCIHeaders := rfl

theorem artifactsOptions_headers (self : CircleCIArtifacts) (n : Nat) :
    (CircleCIArtifacts.artifactsOptions self n).headers = self.circleCIHeaders := rfl

/-- Every request `initialize` issues carries `this.circleCIHeaders` as its
headers, in every branch; a successful run leaves `circleCIHeaders`
unchanged in the returned state. -/
theorem initialize_headers_and_state (self : CircleCIArtifacts) (api : Api)
    (branchName : String) :
    (∀ r ∈ ( CircleCIArtifacts.initialize self api branchName).2,
        r.headers = self.circleCIHeaders) ∧
    (∀ self', ( CircleCIArtifacts.initialize self api branchName).1 = .ok self' →
        self'.circleCIHeaders = self.circleCIHeaders) := by
  simp only [ CircleCIArtifacts.initialize, getLastCircleCIPipelineID_trace,
    getPackageAndReleaseWorkflow_trace, getTestsWorkflow_trace,
    getCircleCIJobs_trace]
  cases h1 : (CircleCIArtifacts.getLastCircleCIPipelineID self api branchName).1 with
  | error e =>
    refine ⟨?_, fun self' h => by simp [h1] at h⟩
    simp [h1, List.forall_mem_cons, pipelineOptions_headers]
  | ok pipeline =>
    cases h2 : (CircleCIArtifacts.getPackageAndReleaseWorkflow self api pipeline.id).1 with
    | error e =>
      refine ⟨?_, fun self' h => by simp [h1, h2] at h⟩
      simp [h1, h2, List.forall_mem_cons, pipelineOptions_headers,
        workflowOptions_headers]
    | ok ow1 =>
      cases h3 : CircleCIArtifacts.throwIfPendingOrUnsuccessfulWorkflow ow1 with
      | error e =>
        refine ⟨?_, fun self' h => by simp [h1, h2, h3] at h⟩
        simp [h1, h2, h3, List.forall_mem_cons, pipelineOptions_headers,
          workflowOptions_headers]
      | ok u1 =>
        cases h4 : (CircleCIArtifacts.getTestsWorkflow self api pipeline.id).1 with
        | error e =>
          refine ⟨?_, fun self' h => by simp [h1, h2, h3, h4] at h⟩
          simp [h1, h2, h3, h4, List.forall_mem_cons, pipelineOptions_headers,
            workflowOptions_headers]
        | ok ow2 =>
          cases h5 : CircleCIArtifacts.throwIfPendingOrUnsuccessfulWorkflow ow2 with
          | error e =>
            refine ⟨?_, fun self' h => by simp [h1, h2, h3, h4, h5] at h⟩
            simp [h1, h2, h3, h4, h5, List.forall_mem_cons, pipelineOptions_headers,
              workflowOptions_headers]
          | ok u2 =>
            cases ow1 with
            | none =>
              refine ⟨?_, fun self' h => by simp [h1, h2, h3, h4, h5] at h⟩
              simp [h1, h2, h3, h4, h5, List.forall_mem_cons,
                pipelineOptions_headers, workflowOptions_headers]
            | some w1 =>
              cases ow2 with
              | none =>
                refine ⟨?_, fun self' h => by simp [h1, h2, h3, h4, h5] at h⟩
                simp [h1, h2, h3, h4, h5, List.forall_mem_cons,
                  pipelineOptions_headers, workflowOptions_headers]
              | some w2 =>
                cases h6 : (CircleCIArtifacts.getCircleCIJobs self api w1.id).1 with
                | error e =>
                  refine ⟨?_, fun self' h => by simp [h1, h2, h3, h4, h5, h6] at h⟩
                  simp [h1, h2, h3, h4, h5, h6, List.forall_mem_cons,
                    pipelineOptions_headers, workflowOptions_headers, jobOptions_headers]
                | ok jobs1 =>
                  cases h7 : (CircleCIArtifacts.getCircleCIJobs self api w2.id).1 with
                  | error e =>
                    refine ⟨?_, fun self' h => by simp [h1, h2, h3, h4, h5, h6, h7] at h⟩
                    simp [h1, h2, h3, h4, h5, h6, h7, List.forall_mem_cons,
                      pipelineOptions_headers, workflowOptions_headers, jobOptions_headers]
                  | ok jobs2 =>
                    refine ⟨?_, fun self' h => ?_⟩
                    · simp [h1, h2, h3, h4, h5, h6, h7, List.forall_mem_cons,
                        pipelineOptions_headers, workflowOptions_headers, jobOptions_headers]
                    · simp only [h1, h2, h3, h4, h5, h6, h7] at h
                      simp only [Except.ok.injEq] at h
                      subst h
                      rfl

/-- Whenever the pipeline listing succeeds with a first item `p`, the first
two requests `initialize` issues are the pipeline request and the workflow
request for `p.id`, in every later branch. -/
theorem initialize_first_two_requests (self : CircleCIArtifacts) (api : Api)
    (branchName : String) (p : Pipeline) (rest : List Pipeline)
    (hpl : api.pipeline (CircleCIArtifacts.pipelineOptions self branchName)
      = ⟨none, p :: rest⟩) :
    (( CircleCIArtifacts.initialize self api branchName).2).take 2
      = [CircleCIArtifacts.pipelineOptions self branchName,
         CircleCIArtifacts.workflowOptions self p.id] := by
  have e1 : (CircleCIArtifacts.getLastCircleCIPipelineID self api branchName).1
      = .ok ⟨p.id, p.number⟩ :=
    getLastCircleCIPipelineID_fst_ok self api branchName p rest hpl
  cases h2 : (CircleCIArtifacts.getPackageAndReleaseWorkflow self api p.id).1 with
  | error e =>
    simp [ CircleCIArtifacts.initialize, e1, h2, getLastCircleCIPipelineID_trace,
      getPackageAndReleaseWorkflow_trace]
  | ok ow1 =>
    cases h3 : CircleCIArtifacts.throwIfPendingOrUnsuccessfulWorkflow ow1 with
    | error e =>
      simp [ CircleCIArtifacts.initialize, e1, h2, h3, getLastCircleCIPipelineID_trace,
        getPackageAndReleaseWorkflow_trace]
    | ok u1 =>
      cases h4 : (CircleCIArtifacts.getTestsWorkflow self api p.id).1 with
      | error e =>
        simp [ CircleCIArtifacts.initialize, e1, h2, h3, h4,
          getLastCircleCIPipelineID_trace, getPackageAndReleaseWorkflow_trace,
          getTestsWorkflow_trace]
      | ok ow2 =>
        cases h5 : CircleCIArtifacts.throwIfPendingOrUnsuccessfulWorkflow ow2 with
        | error e =>
          simp [ CircleCIArtifacts.initialize, e1, h2, h3, h4, h5,
            getLastCircleCIPipelineID_trace, getPackageAndReleaseWorkflow_trace,
            getTestsWorkflow_trace]
        | ok u2 =>
          cases ow1 with
          | none =>
            simp [ CircleCIArtifacts.initialize, e1, h2, h3, h4, h5,
              getLastCircleCIPipelineID_trace, getPackageAndReleaseWorkflow_trace,
              getTestsWorkflow_trace]
          | some w1 =>
            cases ow2 with
            | none =>
              simp [ CircleCIArtifacts.initialize, e1, h2, h3, h4, h5,
                getLastCircleCIPipelineID_trace, getPackageAndReleaseWorkflow_trace,
                getTestsWorkflow_trace]
            | some w2 =>
              cases h6 : (CircleCIArtifacts.getCircleCIJobs self api w1.id).1 with
              | error e =>
                simp [ CircleCIArtifacts.initialize, e1, h2, h3, h4, h5, h6,
                  getLastCircleCIPipelineID_trace, getPackageAndReleaseWorkflow_trace,
                  getTestsWorkflow_trace, getCircleCIJobs_trace]
              | ok jobs1 =>
                cases h7 : (CircleCIArtifacts.getCircleCIJobs self api w2.id).1 with
                | error e =>
                  simp [ CircleCIArtifacts.initialize, e1, h2, h3, h4, h5, h6, h7,
                    getLastCircleCIPipelineID_trace, getPackageAndReleaseWorkflow_trace,
                    getTestsWorkflow_trace, getCircleCIJobs_trace]
                | ok jobs2 =>
                  simp [ CircleCIArtifacts.initialize, e1, h2, h3, h4, h5, h6, h7,
                    getLastCircleCIPipelineID_trace, getPackageAndReleaseWorkflow_trace,
                    getTestsWorkflow_trace, getCircleCIJobs_trace]

/-- Every request `#findUrlForJob` issues carries `this.circleCIHeaders`. -/
theorem findUrlForJob_headers (self : CircleCIArtifacts) (api : Api)
    (jobName artifactPath : String) :
    ∀ r ∈ (CircleCIArtifacts.findUrlForJob self api jobName artifactPath).2,
      r.headers = self.circleCIHeaders := by
  simp only [CircleCIArtifacts.findUrlForJob, getJobsArtifacts_trace]
  cases hj : self.jobs with
  | none => simp [hj]
  | some jobsList =>
    cases hf : jobsList.find? (fun j => j.name == jobName) with
    | none => simp [hj, hf]
    | some job =>
      cases ha : (CircleCIArtifacts.getJobsArtifacts self api job.job_number).1 with
      | error e => simp [hj, hf, ha, List.forall_mem_cons, artifactsOptions_headers]
      | ok artifacts =>
        cases hm : artifacts.find? (fun artifact =>
            strContains artifact.path artifactPath) with
        | none => simp [hj, hf, ha, hm, List.forall_mem_cons, artifactsOptions_headers]
        | some artifact =>
          simp [hj, hf, ha, hm, List.forall_mem_cons, artifactsOptions_headers]

/-- C5 (code bug in the source): the constructor stores the
`Circle-Token` header object into the property `circleCIToken`, but every
request helper reads `this.circleCIHeaders`, which is never assigned — so
for every token and every API, each HTTP request the resolver issues
(during `initialize` and during any later `findUrlForJob`) carries no
headers at all (`none`), not an authentication header built from the
token. -/
theorem requests_lack_auth_header (circleCIToken branchName jobName artifactPath :
    String) (api : Api) :
    (CircleCIArtifacts.constructor circleCIToken).circleCIToken
      = [("Circle-Token", circleCIToken)] ∧
    (∀ r ∈ ( CircleCIArtifacts.initialize
        (CircleCIArtifacts.constructor circleCIToken) api branchName).2,
      r.headers = none) ∧
    (∀ self', ( CircleCIArtifacts.initialize
        (CircleCIArtifacts.constructor circleCIToken) api branchName).1 = .ok self' →
      ∀ r ∈ (CircleCIArtifacts.findUrlForJob self' api jobName artifactPath).2,
        r.headers = none) := by
  have hmaster := initialize_headers_and_state
    (CircleCIArtifacts.constructor circleCIToken) api branchName
  refine ⟨rfl, fun r hr => hmaster.1 r hr, fun self' hok r hr => ?_⟩
  have hpres : self'.circleCIHeaders
      = (CircleCIArtifacts.constructor circleCIToken).circleCIHeaders :=
    hmaster.2 self' hok
  have := findUrlForJob_headers self' api jobName artifactPath r hr
  rw [this, hpres]
  rfl

/-- Witness for C5: with token "SECRET" and the healthy stub, the pipeline
request `initialize` issues first carries no headers, although the
constructor stored the Circle-Token pair (in the wrong property). -/
theorem requests_lack_auth_header_witness :
    (CircleCIArtifacts.constructor "SECRET").circleCIToken
      = [("Circle-Token", "SECRET")] ∧
    (CircleCIArtifacts.pipelineOptions (CircleCIArtifacts.constructor "SECRET")
      "main").headers = none :=
  ⟨(requests_lack_auth_header "SECRET" "main" "job" "frag" witnessApi).1,
   (requests_lack_auth_header "SECRET" "main" "job" "frag" witnessApi).2.1
     (CircleCIArtifacts.pipelineOptions (CircleCIArtifacts.constructor "SECRET") "main")
     (by decide)⟩

/-- C3 (amended): for every branch whose pipeline listing has at least one
item, the pipeline step selects exactly the item at index 0, returning its
`id` and `number`, and the next request `initialize` issues is the workflow
listing for that pipeline's id; when the listing has no items, `initialize`
fails with a TypeError from reading `id` on `undefined` — the empty case
is unguarded in the source — and not with a `NotFound` error. -/
theorem initialize_selects_first_pipeline
    (self : CircleCIArtifacts) (api api2 : Api) (branchName : String)
    (p : Pipeline) (rest : List Pipeline)
    (hpl : api.pipeline (CircleCIArtifacts.pipelineOptions self branchName)
      = ⟨none, p :: rest⟩)
    (hpl2 : api2.pipeline (CircleCIArtifacts.pipelineOptions self branchName)
      = ⟨none, []⟩) :
    (CircleCIArtifacts.getLastCircleCIPipelineID self api branchName).1
      = .ok ⟨p.id, p.number⟩ ∧
    (( CircleCIArtifacts.initialize self api branchName).2).take 2
      = [CircleCIArtifacts.pipelineOptions self branchName,
         CircleCIArtifacts.workflowOptions self p.id] ∧
    ( CircleCIArtifacts.initialize self api2 branchName).1
      = .error (.typeError "id") ∧
    failsWithNotFound ( CircleCIArtifacts.initialize self api2 branchName).1
      = false := by
  have hempty : (CircleCIArtifacts.getLastCircleCIPipelineID self api2 branchName).1
      = .error (.typeError "id") := by
    simp [CircleCIArtifacts.getLastCircleCIPipelineID, hpl2]
  refine ⟨getLastCircleCIPipelineID_fst_ok self api branchName p rest hpl,
    initialize_first_two_requests self api branchName p rest hpl, ?_, ?_⟩
  · simp [ CircleCIArtifacts.initialize, hempty]
  · simp [ CircleCIArtifacts.initialize, hempty, failsWithNotFound]

/-- Witness for C3 at the healthy stub and the empty-pipelines stub. -/
theorem initialize_selects_first_pipeline_witness :
    (CircleCIArtifacts.getLastCircleCIPipelineID
        (CircleCIArtifacts.constructor "token") witnessApi "main").1
      = .ok ⟨"p1", 42⟩ ∧
    (( CircleCIArtifacts.initialize (CircleCIArtifacts.constructor "token")
        witnessApi "main").2).take 2
      = [CircleCIArtifacts.pipelineOptions (CircleCIArtifacts.constructor "token") "main",
         CircleCIArtifacts.workflowOptions (CircleCIArtifacts.constructor "token") "p1"] ∧
    ( CircleCIArtifacts.initialize (CircleCIArtifacts.constructor "token")
        emptyPipelinesApi "main").1 = .error (.typeError "id") ∧
    failsWithNotFound ( CircleCIArtifacts.initialize
        (CircleCIArtifacts.constructor "token") emptyPipelinesApi "main").1 = false :=
  initialize_selects_first_pipeline (CircleCIArtifacts.constructor "token")
    witnessApi emptyPipelinesApi "main" ⟨"p1", 42⟩ [] rfl rfl

/-- Counterexample for C3 as stated: with a pipeline listing that has no
items, `initialize` does not fail with the specification's `NotFound` — it
fails with the TypeError raised by reading `id` on `undefined`. -/
theorem initialize_empty_pipelines_cex :
    ( CircleCIArtifacts.initialize (CircleCIArtifacts.constructor "token")
        emptyPipelinesApi "main").1 = .error (.typeError "id") ∧
    failsWithNotFound ( CircleCIArtifacts.initialize
        (CircleCIArtifacts.constructor "token") emptyPipelinesApi "main").1
      = false :=
  ⟨rfl, rfl⟩

/-- C6 (amended): when the workflow listing of the selected pipeline
contains no workflow named "package_and_publish_release_dryrun" (or, with
a successful dry-run workflow present, none named "tests"), the lookup
`body.items.find(...)` yields `undefined`, and `initialize` fails with the
TypeError raised by reading `status` on `undefined` — not with a
`NotFound` error for the absent workflow. -/
theorem initialize_missing_workflow_typeError
    (self : CircleCIArtifacts) (api : Api) (branchName : String)
    (p : Pipeline) (rest : List Pipeline) (ws : List Workflow)
    (hpl : api.pipeline (CircleCIArtifacts.pipelineOptions self branchName)
      = ⟨none, p :: rest⟩)
    (hwf : api.workflow (CircleCIArtifacts.workflowOptions self p.id) = ⟨none, ws⟩) :
    ((∀ w ∈ ws, w.name ≠ "package_and_publish_release_dryrun") →
      ( CircleCIArtifacts.initialize self api branchName).1
        = .error (.typeError "status") ∧
      failsWithNotFound ( CircleCIArtifacts.initialize self api branchName).1
        = false) ∧
    (∀ w1, ws.find? (fun workflow =>
        workflow.name == "package_and_publish_release_dryrun") = some w1 →
      w1.status = "success" →
      (∀ w ∈ ws, w.name ≠ "tests") →
      ( CircleCIArtifacts.initialize self api branchName).1
        = .error (.typeError "status")) := by
  have e1 : (CircleCIArtifacts.getLastCircleCIPipelineID self api branchName).1
      = .ok ⟨p.id, p.number⟩ :=
    getLastCircleCIPipelineID_fst_ok self api branchName p rest hpl
  constructor
  · intro habsent
    have hf : ws.find? (fun workflow =>
        workflow.name == "package_and_publish_release_dryrun") = none :=
      List.find?_eq_none.mpr (fun x hx hb => (habsent x hx) (by simpa using hb))
    have e2 : (CircleCIArtifacts.getPackageAndReleaseWorkflow self api p.id).1
        = .ok none := by
      unfold CircleCIArtifacts.getPackageAndReleaseWorkflow
      rw [getSpecificWorkflow_fst_ok self api p.id _ ws hwf, hf]
    constructor
    · simp [ CircleCIArtifacts.initialize, e1, e2,
        CircleCIArtifacts.throwIfPendingOrUnsuccessfulWorkflow]
    · simp [ CircleCIArtifacts.initialize, e1, e2,
        CircleCIArtifacts.throwIfPendingOrUnsuccessfulWorkflow, failsWithNotFound]
  · intro w1 hfind1 hs1 habsent
    have hf2 : ws.find? (fun workflow => workflow.name == "tests") = none :=
      List.find?_eq_none.mpr (fun x hx hb => (habsent x hx) (by simpa using hb))
    have e2 : (CircleCIArtifacts.getPackageAndReleaseWorkflow self api p.id).1
        = .ok (some w1) := by
      unfold CircleCIArtifacts.getPackageAndReleaseWorkflow
      rw [getSpecificWorkflow_fst_ok self api p.id _ ws hwf, hfind1]
    have e3 : (CircleCIArtifacts.getTestsWorkflow self api p.id).1 = .ok none := by
      unfold CircleCIArtifacts.getTestsWorkflow
      rw [getSpecificWorkflow_fst_ok self api p.id _ ws hwf, hf2]
    simp [ CircleCIArtifacts.initialize, e1, e2, e3,
      CircleCIArtifacts.throwIfPendingOrUnsuccessfulWorkflow, hs1]

/-- Witness for C6 at a stub whose workflow listing names neither
significant workflow. -/
theorem initialize_missing_workflow_typeError_witness :
    ( CircleCIArtifacts.initialize (CircleCIArtifacts.constructor "token")
        missingWorkflowApi "main").1 = .error (.typeError "status") ∧
    failsWithNotFound ( CircleCIArtifacts.initialize
        (CircleCIArtifacts.constructor "token") missingWorkflowApi "main").1
      = false :=
  (initialize_missing_workflow_typeError (CircleCIArtifacts.constructor "token")
    missingWorkflowApi "main" ⟨"p1", 42⟩ [] [⟨"w9", "analyze", "success"⟩]
    rfl rfl).1 (by decide)

/-- Counterexample for C6 as stated: with no workflow of the expected name
in the listing, `initialize` does not fail with the specification's
`NotFound` for the absent workflow — it fails with a TypeError from
reading `status` on `undefined`. -/
theorem initialize_missing_workflow_cex :
    ( CircleCIArtifacts.initialize (CircleCIArtifacts.constructor "cextoken")
        missingWorkflowApi "main").1 = .error (.typeError "status") ∧
    failsWithNotFound ( CircleCIArtifacts.initialize
        (CircleCIArtifacts.constructor "cextoken") missingWorkflowApi "main").1
      = false :=
  ⟨rfl, rfl⟩

/-- C7 (amended): for a successfully initialized resolver and a job name
absent from the aggregated job collection, `findUrlForJob` issues no
artifact request (the trace is empty) and fails with the TypeError raised
by reading `job_number` on the `undefined` result of the job lookup — not
with a `JobNotFound` error. -/
theorem findUrlForJob_absent_job (self : CircleCIArtifacts) (api : Api)
    (jobName artifactPath : String) (jobsList : List Job)
    (hjobs : self.jobs = some jobsList)
    (habsent : ∀ j ∈ jobsList, j.name ≠ jobName) :
    CircleCIArtifacts.findUrlForJob self api jobName artifactPath
      = (.error (.typeError "job_number"), []) ∧
    failsWithJobNotFound
      (CircleCIArtifacts.findUrlForJob self api jobName artifactPath).1 = false := by
  have hf : jobsList.find? (fun j => j.name == jobName) = none :=
    List.find?_eq_none.mpr (fun x hx hb => (habsent x hx) (by simpa using hb))
  constructor
  · simp [CircleCIArtifacts.findUrlForJob, hjobs, hf]
  · simp [CircleCIArtifacts.findUrlForJob, hjobs, hf, failsWithJobNotFound]

/-- Witness for C7 at the post-initialize state of the healthy stub. -/
theorem findUrlForJob_absent_job_witness :
    CircleCIArtifacts.findUrlForJob witnessState witnessApi "no_such_job" "frag"
      = (.error (.typeError "job_number"), []) ∧
    failsWithJobNotFound
      (CircleCIArtifacts.findUrlForJob witnessState witnessApi
        "no_such_job" "frag").1 = false :=
  findUrlForJob_absent_job witnessState witnessApi "no_such_job" "frag"
    [⟨"build_hermes_macos-Debug", 7⟩, ⟨"test_android", 9⟩] rfl (by decide)

/-- Counterexample for C7 as stated: the absent-job failure is not the
specification's `JobNotFound`, and no artifact request is issued. -/
theorem findUrlForJob_jobNotFound_cex :
    CircleCIArtifacts.findUrlForJob witnessState witnessApi "not_a_job" "frag"
      = (.error (.typeError "job_number"), []) ∧
    failsWithJobNotFound
      (CircleCIArtifacts.findUrlForJob witnessState witnessApi
        "not_a_job" "frag").1 = false :=
  ⟨rfl, rfl⟩

/-- C2 (amended): for a successfully initialized resolver and a job found
in the aggregated collection, `findUrlForJob` issues one artifact request
and returns the `url` of the first artifact, in list order, whose `path`
contains the fragment as a substring; when no artifact's path contains the
fragment, it fails with the TypeError raised by reading `url` on the
`undefined` result of the unguarded find — not with an `ArtifactNotFound`
error. -/
theorem findUrlForJob_first_match (self : CircleCIArtifacts) (api : Api)
    (jobName artifactPath : String) (jobsList : List Job) (job : Job)
    (hjobs : self.jobs = some jobsList)
    (hfind : jobsList.find? (fun j => j.name == jobName) = some job) :
    (∀ arts l1 a l2,
      api.artifacts (CircleCIArtifacts.artifactsOptions self job.job_number)
        = ⟨none, arts⟩ →
      arts = l1 ++ a :: l2 →
      (∀ b ∈ l1, strContains b.path artifactPath = false) →
      strContains a.path artifactPath = true →
      CircleCIArtifacts.findUrlForJob self api jobName artifactPath
        = (.ok a.url, [CircleCIArtifacts.artifactsOptions self job.job_number])) ∧
    (∀ arts,
      api.artifacts (CircleCIArtifacts.artifactsOptions self job.job_number)
        = ⟨none, arts⟩ →
      (∀ b ∈ arts, strContains b.path artifactPath = false) →
      CircleCIArtifacts.findUrlForJob self api jobName artifactPath
        = (.error (.typeError "url"),
           [CircleCIArtifacts.artifactsOptions self job.job_number]) ∧
      failsWithArtifactNotFound
        (CircleCIArtifacts.findUrlForJob self api jobName artifactPath).1
        = false) := by
  constructor
  · intro arts l1 a l2 hart harts hmiss hhit
    subst harts
    have ea : (CircleCIArtifacts.getJobsArtifacts self api job.job_number).1
        = .ok (l1 ++ a :: l2) :=
      getJobsArtifacts_fst_ok self api job.job_number _ hart
    have hfa : (l1 ++ a :: l2).find?
        (fun artifact => strContains artifact.path artifactPath) = some a :=
      find?_first _ l1 a l2 hmiss hhit
    simp [CircleCIArtifacts.findUrlForJob, hjobs, hfind, ea, hfa,
      getJobsArtifacts_trace]
  · intro arts hart hmiss
    have ea : (CircleCIArtifacts.getJobsArtifacts self api job.job_number).1
        = .ok arts :=
      getJobsArtifacts_fst_ok self api job.job_number _ hart
    have hfa : arts.find?
        (fun artifact => strContains artifact.path artifactPath) = none :=
      List.find?_eq_none.mpr (fun x hx hb => by
        have := hmiss x hx
        rw [this] at hb
        exact Bool.false_ne_true hb)
    constructor
    · simp [CircleCIArtifacts.findUrlForJob, hjobs, hfind, ea, hfa,
        getJobsArtifacts_trace]
    · simp [CircleCIArtifacts.findUrlForJob, hjobs, hfind, ea, hfa,
        failsWithArtifactNotFound]

/-- Witness for C2 at the healthy stub: the single artifact of job 7 whose
path contains the fragment is returned. -/
theorem findUrlForJob_first_match_witness :
    CircleCIArtifacts.findUrlForJob witnessState witnessApi
        "build_hermes_macos-Debug" "hermes-ios-debug.tar.gz"
      = (.ok "https://example.com/hermes",
         [CircleCIArtifacts.artifactsOptions witnessState 7]) :=
  (findUrlForJob_first_match witnessState witnessApi
    "build_hermes_macos-Debug" "hermes-ios-debug.tar.gz"
    [⟨"build_hermes_macos-Debug", 7⟩, ⟨"test_android", 9⟩]
    ⟨"build_hermes_macos-Debug", 7⟩ rfl (by decide)).1
    [⟨"artifacts/hermes-ios-debug.tar.gz", "https://example.com/hermes"⟩]
    [] ⟨"artifacts/hermes-ios-debug.tar.gz", "https://example.com/hermes"⟩ []
    rfl rfl (by simp) (by decide)

/-- Counterexample for C2 as stated: when no artifact path contains the
fragment, the failure is not the specification's `ArtifactNotFound` — it
is the TypeError raised by reading `url` on `undefined`. -/
theorem findUrlForJob_artifactNotFound_cex :
    (CircleCIArtifacts.findUrlForJob witnessState witnessApi
        "build_hermes_macos-Debug" "no-such-artifact").1
      = .error (.typeError "url") ∧
    failsWithArtifactNotFound
      (CircleCIArtifacts.findUrlForJob witnessState witnessApi
        "build_hermes_macos-Debug" "no-such-artifact").1 = false :=
  ⟨rfl, rfl⟩

end RNTestingUtils
